import Mathlib

/-!
Shallow embedding of the task-management backend
(`app/main.py`, `app/auth.py`, `app/models.py`, `app/db.py`, `app/utils.py`,
`app/api.py`) and proofs about it.

Conventions of the embedding:
* the Mongo document store is explicit state (`Store`), repository calls are
  pure functions over it, and every handler additionally returns the list of
  repository calls it performed (`StoreCall`);
* `datetime.utcnow()` is an explicit `now : Nat` parameter (seconds);
* the generated Mongo `_id` of an insert is an explicit `newId : String`
  parameter;
* `json.loads` and `jwt.decode` are external library calls, passed in as
  function parameters (`loads`, `verify`); `json.loads` returning `none`
  models a `JSONDecodeError`, `verify` returning `none` models any
  `jwt.PyJWTError`;
* Python falsiness of strings/`None` is modelled explicitly at each use site.
-/

namespace TaskApi

/-- The literal `"Bearer "` used by `get_current_user` (auth.py line 78/81). -/
def bearerChars : List Char := ['B', 'e', 'a', 'r', 'e', 'r', ' ']

/-- Fuel-indexed worker for Python `str.replace("Bearer ", "")`: scans left to
right and removes every non-overlapping occurrence of `bearerChars`.  The fuel
only needs to be at least the length of the input; it makes the recursion
structural. -/
def replaceBearerGo : Nat → List Char → List Char
  | _, [] => []
  | 0, s => s
  | Nat.succ fuel, c :: rest =>
    if bearerChars.isPrefixOf (c :: rest) then replaceBearerGo fuel (List.drop 6 rest)
    else c :: replaceBearerGo fuel rest

/-- Python `authorization.replace("Bearer ", "")` (auth.py line 81): deletes
every occurrence of the substring `"Bearer "`. -/
def stripBearerAll (s : List Char) : List Char := replaceBearerGo s.length s

/-- A JSON scalar as it appears in request bodies read by the handlers
(the handlers only ever read string-or-null valued fields). -/
inductive JVal where
  | jnull
  | jstr (s : String)
deriving DecidableEq

/-- A parsed JSON request body, restricted to the keys the handlers read.
Extra keys are ignored by pydantic (v1 default `Extra.ignore`), so they do
not need to be represented. -/
structure JObj where
  title : Option JVal := none
  description : Option JVal := none
  status : Option JVal := none
  email : Option JVal := none
  password : Option JVal := none
deriving DecidableEq

/-- models.py line 6. -/
def TASK_STATUS : List String := ["todo", "in_progress", "completed"]

/-- Result of validating a `TaskCreate` body (models.py lines 8-22). -/
structure TaskCreateData where
  title : String
  description : String
  status : String
deriving DecidableEq

/-- Result of validating a `TaskUpdate` body (models.py lines 24-34). -/
structure TaskUpdateData where
  title : Option String
  description : Option String
  status : Option String
deriving DecidableEq

/-- pydantic validation of a required `str` field: missing field and explicit
`null` are both errors; any string (including `""`) is accepted. -/
def parseRequiredStr : Option JVal → Except String String
  | none => Except.error "field required"
  | some JVal.jnull => Except.error "none is not an allowed value"
  | some (JVal.jstr s) => Except.ok s

/-- pydantic validation of an `Optional[str]` field: missing and `null` both
become `None`. -/
def parseOptionalStr : Option JVal → Except String (Option String)
  | none => Except.ok none
  | some JVal.jnull => Except.ok none
  | some (JVal.jstr s) => Except.ok (some s)

/-- The `status` field of `TaskCreate`: defaults to `"todo"` when absent
(the validator does not run on the default), `null` is rejected by the `str`
type, and a string must be in `TASK_STATUS` (models.py lines 12-18). -/
def parseStatusCreate : Option JVal → Except String String
  | none => Except.ok "todo"
  | some JVal.jnull => Except.error "none is not an allowed value"
  | some (JVal.jstr s) =>
    if s ∈ TASK_STATUS then Except.ok s else Except.error "Status must be one of TASK_STATUS"

/-- The `status` field of `TaskUpdate`: absent and `null` become `None`
(the validator skips `None`), a string must be in `TASK_STATUS`
(models.py lines 28-34). -/
def parseStatusUpdate : Option JVal → Except String (Option String)
  | none => Except.ok none
  | some JVal.jnull => Except.ok none
  | some (JVal.jstr s) =>
    if s ∈ TASK_STATUS then Except.ok (some s) else Except.error "Status must be one of TASK_STATUS"

/-- `TaskCreate(**body)` (models.py lines 8-22): validation of the three
fields; any field error raises, caught by the handler as a 422. -/
def TaskCreate.parse (b : JObj) : Except String TaskCreateData :=
  match parseRequiredStr b.title with
  | Except.error m => Except.error m
  | Except.ok title =>
    match parseRequiredStr b.description with
    | Except.error m => Except.error m
    | Except.ok description =>
      match parseStatusCreate b.status with
      | Except.error m => Except.error m
      | Except.ok status => Except.ok ⟨title, description, status⟩

/-- `TaskUpdate(**body)` (models.py lines 24-34). -/
def TaskUpdate.parse (b : JObj) : Except String TaskUpdateData :=
  match parseOptionalStr b.title with
  | Except.error m => Except.error m
  | Except.ok title =>
    match parseOptionalStr b.description with
    | Except.error m => Except.error m
    | Except.ok description =>
      match parseStatusUpdate b.status with
      | Except.error m => Except.error m
      | Except.ok status => Except.ok ⟨title, description, status⟩

/-- A task document as stored in the `tasks` collection. -/
structure TaskRec where
  id : String
  title : String
  description : String
  status : String
  created_at : Nat
  updated_at : Option Nat
deriving DecidableEq

/-- A user document as stored in the `users` collection. -/
structure UserRec where
  id : String
  email : String
  username : String
  password : String
  created_at : Nat
deriving DecidableEq

/-- A user record with the `password` key removed
(`{k: v for k, v in user.items() if k != "password"}`). -/
structure UserView where
  id : String
  email : String
  username : String
  created_at : Nat
deriving DecidableEq

def stripPassword (u : UserRec) : UserView :=
  { id := u.id, email := u.email, username := u.username, created_at := u.created_at }

/-- The document store: the two collections of db.py. -/
structure Store where
  tasks : List TaskRec
  users : List UserRec
deriving DecidableEq

def isHexDigit (c : Char) : Bool :=
  c.isDigit || ('a' ≤ c && c ≤ 'f') || ('A' ≤ c && c ≤ 'F')

/-- `bson.ObjectId.is_valid` on a string: a 24-character hex string. -/
def ObjectId.is_valid (s : String) : Bool :=
  s.length == 24 && s.toList.all isHexDigit

/-- Which repository operation a handler invoked (used to state the
"no store call happens" claims). -/
inductive StoreCall where
  | taskGetAll
  | taskCreate
  | taskUpdate
  | taskDelete
  | userGetByEmail
deriving DecidableEq

/-- Replace the first task whose `_id` matches (`find_one_and_update` touches
a single document). -/
def setFirst (task_id : String) (t2 : TaskRec) : List TaskRec → List TaskRec
  | [] => []
  | t :: rest => if t.id == task_id then t2 :: rest else t :: setFirst task_id t2 rest

/-- Remove the first task whose `_id` matches (`delete_one`). -/
def eraseFirst (task_id : String) : List TaskRec → List TaskRec
  | [] => []
  | t :: rest => if t.id == task_id then rest else t :: eraseFirst task_id rest

namespace TasksRepository

/-- db.py lines 50-53. -/
def get_all (st : Store) : List TaskRec := st.tasks

/-- db.py lines 62-71: set `created_at`, null `updated_at`, insert, and
return the document together with its generated id. -/
def create (st : Store) (d : TaskCreateData) (newId : String) (now : Nat) :
    TaskRec × Store :=
  let task : TaskRec :=
    { id := newId, title := d.title, description := d.description,
      status := d.status, created_at := now, updated_at := none }
  (task, { st with tasks := st.tasks ++ [task] })

/-- db.py lines 73-87: guard on `ObjectId.is_valid`, then
`find_one_and_update` with `$set` of the provided fields plus a refreshed
`updated_at`, returning the document after the update (or `None` when the id
does not match). -/
def update (st : Store) (task_id : String) (u : TaskUpdateData) (now : Nat) :
    Option TaskRec × Store :=
  if ObjectId.is_valid task_id then
    match st.tasks.find? (fun t => t.id == task_id) with
    | none => (none, st)
    | some t =>
      let t2 : TaskRec :=
        { t with
          title := u.title.getD t.title,
          description := u.description.getD t.description,
          status := u.status.getD t.status,
          updated_at := some now }
      (some t2, { st with tasks := setFirst task_id t2 st.tasks })
  else (none, st)

/-- db.py lines 89-96: guard on `ObjectId.is_valid`, then `delete_one`;
returns whether a document was deleted. -/
def delete (st : Store) (task_id : String) : Bool × Store :=
  if ObjectId.is_valid task_id then
    if st.tasks.any (fun t => t.id == task_id) then
      (true, { st with tasks := eraseFirst task_id st.tasks })
    else (false, st)
  else (false, st)

end TasksRepository

namespace UsersRepository

/-- db.py lines 100-103: `find_one({"email": email})`. -/
def get_by_email (users : List UserRec) (email : String) : Option UserRec :=
  users.find? (fun u => u.email == email)

end UsersRepository

/-- The claim set of a JWT issued or verified here.  `sub` is `none` when the
`"sub"` key is absent from the payload. -/
structure TokenPayload where
  sub : Option String := none
  exp : Nat := 0
deriving DecidableEq

/-- auth.py line 13 (hours). -/
def JWT_EXPIRATION : Nat := 24

/-- auth.py lines 15-23: copy the claims and set `exp` 24 hours out.
`jwt.encode` itself is an external injective encoding, so the token is
modelled by its claim set. -/
def create_access_token (data : TokenPayload) (now : Nat) : TokenPayload :=
  { data with exp := now + JWT_EXPIRATION * 3600 }

/-- auth.py lines 55-72: look the user up by email, compare the stored
password by equality, and return the record with the password stripped. -/
def authenticate_user (users : List UserRec) (email password : String) :
    Option UserView :=
  match UsersRepository.get_by_email users email with
  | none => none
  | some user => if user.password ≠ password then none else some (stripPassword user)

/-- auth.py lines 82-93, after the token string has been extracted: verify,
require a `"sub"` claim, re-resolve the user by email, strip the password.
Also reports the store call made. -/
def userFromPayload (users : List UserRec) : Option TokenPayload → Option UserView × List StoreCall
  | none => (none, [])
  | some payload =>
    match payload.sub with
    | none => (none, [])
    | some sub =>
      match UsersRepository.get_by_email users sub with
      | none => (none, [StoreCall.userGetByEmail])
      | some user => (some (stripPassword user), [StoreCall.userGetByEmail])

/-- auth.py lines 74-93.  The verified string is
`authorization.replace("Bearer ", "")` — every occurrence of `"Bearer "` in
the header is deleted, not just the leading one. -/
def get_current_user (verify : List Char → Option TokenPayload)
    (users : List UserRec) (authorization : List Char) :
    Option UserView × List StoreCall :=
  if authorization = [] ∨ ¬ bearerChars.isPrefixOf authorization then (none, [])
  else userFromPayload users (verify (stripBearerAll authorization))

/-- The Python-level value of `event["body"]`: missing key, `None`, a JSON
string, or an already-parsed dict. -/
inductive BodyVal where
  | absent
  | pynull
  | pystr (s : String)
  | pyobj (o : JObj)
deriving DecidableEq

/-- A Lambda event as the handlers read it: the two capitalizations of the
Authorization header, the `id` path parameter, the body, and the `user` slot
filled in by `require_auth`. -/
structure Event where
  authUpper : Option (List Char) := none
  authLower : Option (List Char) := none
  pathId : Option String := none
  body : BodyVal := BodyVal.absent
  user : Option UserView := none
deriving DecidableEq

/-- The string `"{}"`, the default body (utils.py line 62). -/
def jsonEmptyObjText : String := "\x7b\x7d"

/-- utils.py lines 58-70: missing body defaults to the string `"{}"`; string
bodies go through `json.loads` with `JSONDecodeError` mapped to `{}`
(`loads s = none` models the decode error); `None` and other falsy bodies
become `{}`; dict bodies pass through. -/
def parse_event_body (loads : String → Option JObj) (e : Event) : JObj :=
  match e.body with
  | BodyVal.absent => (loads jsonEmptyObjText).getD {}
  | BodyVal.pystr s => (loads s).getD {}
  | BodyVal.pynull => {}
  | BodyVal.pyobj o => o

/-- A response body, at the granularity the handlers produce: a task list, a
single task, a confirmation message, a login result, or an error object
`{"error": {"message": ...}}`. -/
inductive Payload where
  | tasks (l : List TaskRec)
  | task (t : TaskRec)
  | message (m : String)
  | loginOk (token : TokenPayload) (user : UserView)
  | err (message : String)
deriving DecidableEq

/-- The response envelope (utils.py lines 5-31); the constant CORS headers
carry no information and are omitted. -/
structure Resp where
  statusCode : Nat
  payload : Payload
deriving DecidableEq

/-- utils.py lines 33-37. -/
def success_response (data : Payload) (statusCode : Nat) : Resp :=
  { statusCode := statusCode, payload := data }

/-- utils.py lines 39-56. -/
def error_response (message : String) (statusCode : Nat) : Resp :=
  { statusCode := statusCode, payload := Payload.err message }

/-- A handler result: the response, the store after the call, and the
repository operations invoked during the call. -/
structure HOut where
  resp : Resp
  store : Store
  calls : List StoreCall
deriving DecidableEq

/-- main.py line 18:
`headers.get("Authorization") or headers.get("authorization")` — the
lowercase header is used when the capitalized one is absent or empty. -/
def pickAuth (e : Event) : Option (List Char) :=
  match e.authUpper with
  | none => e.authLower
  | some a => if a = [] then e.authLower else some a

/-- main.py lines 11-34: the `require_auth` decorator.  Missing/empty header
gives 401, `get_current_user` returning `None` gives 401, otherwise the
wrapped handler runs on the event extended with the user. -/
def require_auth (handler : Store → Event → HOut)
    (verify : List Char → Option TokenPayload) (st : Store) (e : Event) : HOut :=
  match pickAuth e with
  | none => ⟨error_response "Unauthorized: Missing authorization header" 401, st, []⟩
  | some a =>
    if a = [] then ⟨error_response "Unauthorized: Missing authorization header" 401, st, []⟩
    else
      match get_current_user verify st.users a with
      | (none, calls) => ⟨error_response "Unauthorized: Invalid token" 401, st, calls⟩
      | (some u, calls) =>
        ⟨(handler st { e with user := some u }).resp,
         (handler st { e with user := some u }).store,
         calls ++ (handler st { e with user := some u }).calls⟩

/-- main.py lines 36-45, inside the decorator. -/
def get_tasks_handler (st : Store) (_ : Event) : HOut :=
  ⟨success_response (Payload.tasks (TasksRepository.get_all st)) 200, st,
   [StoreCall.taskGetAll]⟩

/-- main.py lines 36-45: `get_tasks`. -/
def get_tasks (verify : List Char → Option TokenPayload) (st : Store) (e : Event) : HOut :=
  require_auth get_tasks_handler verify st e

/-- main.py lines 47-67, inside the decorator: parse the body, validate with
`TaskCreate` (failure gives 422), then insert. -/
def create_task_handler (loads : String → Option JObj) (newId : String) (now : Nat)
    (st : Store) (e : Event) : HOut :=
  match TaskCreate.parse (parse_event_body loads e) with
  | Except.error msg => ⟨error_response ("Invalid task data: " ++ msg) 422, st, []⟩
  | Except.ok d =>
    ⟨success_response (Payload.task (TasksRepository.create st d newId now).1) 201,
     (TasksRepository.create st d newId now).2, [StoreCall.taskCreate]⟩

/-- main.py lines 47-67: `create_task`. -/
def create_task (loads : String → Option JObj) (verify : List Char → Option TokenPayload)
    (newId : String) (now : Nat) (st : Store) (e : Event) : HOut :=
  require_auth (create_task_handler loads newId now) verify st e

/-- main.py lines 69-102, inside the decorator: missing/empty id gives 400,
invalid body gives 422, then `TasksRepository.update` (the `None`-valued
fields of `TaskUpdate` are dropped before the `$set`); `None` result gives
404. -/
def update_task_handler (loads : String → Option JObj) (now : Nat)
    (st : Store) (e : Event) : HOut :=
  match e.pathId with
  | none => ⟨error_response "Task ID is required" 400, st, []⟩
  | some task_id =>
    if task_id = "" then ⟨error_response "Task ID is required" 400, st, []⟩
    else
      match TaskUpdate.parse (parse_event_body loads e) with
      | Except.error msg => ⟨error_response ("Invalid task data: " ++ msg) 422, st, []⟩
      | Except.ok u =>
        match TasksRepository.update st task_id u now with
        | (none, st2) =>
          ⟨error_response ("Task with ID " ++ task_id ++ " not found") 404, st2,
           [StoreCall.taskUpdate]⟩
        | (some t, st2) =>
          ⟨success_response (Payload.task t) 200, st2, [StoreCall.taskUpdate]⟩

/-- main.py lines 69-102: `update_task`. -/
def update_task (loads : String → Option JObj) (verify : List Char → Option TokenPayload)
    (now : Nat) (st : Store) (e : Event) : HOut :=
  require_auth (update_task_handler loads now) verify st e

/-- main.py lines 104-125, inside the decorator. -/
def delete_task_handler (st : Store) (e : Event) : HOut :=
  match e.pathId with
  | none => ⟨error_response "Task ID is required" 400, st, []⟩
  | some task_id =>
    if task_id = "" then ⟨error_response "Task ID is required" 400, st, []⟩
    else
      match TasksRepository.delete st task_id with
      | (false, st2) =>
        ⟨error_response ("Task with ID " ++ task_id ++ " not found") 404, st2,
         [StoreCall.taskDelete]⟩
      | (true, st2) =>
        ⟨success_response (Payload.message "Task deleted successfully") 200, st2,
         [StoreCall.taskDelete]⟩

/-- main.py lines 104-125: `delete_task`. -/
def delete_task (verify : List Char → Option TokenPayload) (st : Store) (e : Event) : HOut :=
  require_auth delete_task_handler verify st e

/-- Python truthiness of a string-or-null body field: only a non-empty string
is truthy; returns the string in that case. -/
def jtruthy : Option JVal → Option String
  | some (JVal.jstr s) => if s = "" then none else some s
  | _ => none

/-- main.py lines 127-156: `login`.  Not wrapped in `require_auth`.  Missing
or empty email/password gives 400, failed authentication gives 401, success
returns the token (subject = the stored user's email) and the
password-stripped user. -/
def login (loads : String → Option JObj) (now : Nat) (st : Store) (e : Event) :
    Resp × List StoreCall :=
  match jtruthy (parse_event_body loads e).email with
  | none => (error_response "Email and password are required" 400, [])
  | some email =>
    match jtruthy (parse_event_body loads e).password with
    | none => (error_response "Email and password are required" 400, [])
    | some password =>
      match authenticate_user st.users email password with
      | none => (error_response "Invalid credentials" 401, [StoreCall.userGetByEmail])
      | some user =>
        (success_response
          (Payload.loginOk (create_access_token { sub := some user.email, exp := 0 } now) user)
          200,
         [StoreCall.userGetByEmail])

/-- Counts of tasks per status, the shape returned by the statistics
endpoint. -/
structure Stats where
  todo : Nat
  inProgress : Nat
  completed : Nat
deriving DecidableEq

/-- `tasks_collection.count_documents({"status": status})` (api.py lines
177-179): pymongo's synchronous count, a plain `int`. -/
def count_documents_status (tasks : List TaskRec) (status : String) : Nat :=
  (tasks.filter (fun t => t.status == status)).length

/-- Python `await v` where `v` is a plain `int`: `get_collection` (db.py)
returns a synchronous pymongo collection, so `count_documents` returns an
`int`, and `await`-ing it raises
`TypeError: object int can't be used in 'await' expression`.  The embedding
therefore always produces the error case. -/
def awaitInt (_ : Nat) : Except String Nat :=
  Except.error "object int cannot be used in await expression"

/-- api.py lines 161-193: `api_get_task_statistics`.  The three counts are
each awaited; any exception (including the `TypeError` from awaiting an
`int`) is swallowed and the all-zero statistics are returned. -/
def api_get_task_statistics (st : Store) : Stats :=
  match awaitInt (count_documents_status st.tasks "todo") with
  | Except.error _ => ⟨0, 0, 0⟩
  | Except.ok todo =>
    match awaitInt (count_documents_status st.tasks "in_progress") with
    | Except.error _ => ⟨0, 0, 0⟩
    | Except.ok inProgress =>
      match awaitInt (count_documents_status st.tasks "completed") with
      | Except.error _ => ⟨0, 0, 0⟩
      | Except.ok completed => ⟨todo, inProgress, completed⟩

/-- The statistics the three count queries of api.py lines 177-179 would
deliver if their results were not awaited: the accurate per-status counts
the endpoint's documentation describes. -/
def statusCounts (st : Store) : Stats :=
  ⟨count_documents_status st.tasks "todo",
   count_documents_status st.tasks "in_progress",
   count_documents_status st.tasks "completed"⟩

/-! ### Lemmas about the `"Bearer "`-deletion of `get_current_user` -/

theorem replaceBearerGo_nil (f : Nat) : replaceBearerGo f [] = [] := by
  cases f <;> rfl

theorem replaceBearerGo_length_le (f : Nat) :
    ∀ s : List Char, (replaceBearerGo f s).length ≤ s.length := by
  induction f with
  | zero => intro s; cases s <;> simp [replaceBearerGo]
  | succ f ih =>
    intro s
    cases s with
    | nil => simp [replaceBearerGo]
    | cons c rest =>
      simp only [replaceBearerGo]
      split
      · have h1 : (replaceBearerGo f (List.drop 6 rest)).length ≤ (List.drop 6 rest).length := ih _
        have h2 : (List.drop 6 rest).length ≤ rest.length := by
          simp [List.length_drop]
        simp only [List.length_cons]
        omega
      · simp only [List.length_cons]
        exact Nat.succ_le_succ (ih rest)

theorem replaceBearerGo_fuel (f1 : Nat) :
    ∀ (f2 : Nat) (s : List Char), s.length ≤ f1 → s.length ≤ f2 →
      replaceBearerGo f1 s = replaceBearerGo f2 s := by
  induction f1 with
  | zero =>
    intro f2 s h1 _
    have : s = [] := List.length_eq_zero.mp (Nat.le_zero.mp h1)
    subst this
    rw [replaceBearerGo_nil, replaceBearerGo_nil]
  | succ f ih =>
    intro f2 s h1 h2
    cases s with
    | nil => rw [replaceBearerGo_nil, replaceBearerGo_nil]
    | cons c rest =>
      cases f2 with
      | zero => simp at h2
      | succ f2 =>
        simp only [replaceBearerGo]
        simp only [List.length_cons] at h1 h2
        split
        · exact ih _ _ (by simp [List.length_drop]; omega) (by simp [List.length_drop]; omega)
        · rw [ih f2 rest (by omega) (by omega)]

theorem stripBearerAll_nil : stripBearerAll [] = [] := rfl

theorem stripBearerAll_cons_hit {c : Char} {rest : List Char}
    (h : bearerChars.isPrefixOf (c :: rest) = true) :
    stripBearerAll (c :: rest) = stripBearerAll (List.drop 6 rest) := by
  unfold stripBearerAll
  simp only [List.length_cons, replaceBearerGo, h, if_pos]
  exact replaceBearerGo_fuel _ _ _ (by simp only [List.length_drop]; omega) le_rfl

theorem stripBearerAll_cons_neg {c : Char} {rest : List Char}
    (h : bearerChars.isPrefixOf (c :: rest) = false) :
    stripBearerAll (c :: rest) = c :: stripBearerAll rest := by
  unfold stripBearerAll
  simp only [List.length_cons, replaceBearerGo, h]
  simp

theorem stripBearerAll_length_le (s : List Char) :
    (stripBearerAll s).length ≤ s.length :=
  replaceBearerGo_length_le _ s

/-- Deleting all `"Bearer "` occurrences from `"Bearer " ++ t` leaves the
deletions over `t` alone: the leading occurrence is consumed first. -/
theorem stripBearerAll_append (t : List Char) :
    stripBearerAll (bearerChars ++ t) = stripBearerAll t := by
  have hp : bearerChars.isPrefixOf (bearerChars ++ t) = true :=
    List.isPrefixOf_iff_prefix.mpr (List.prefix_append _ _)
  have : bearerChars ++ t = 'B' :: (['e', 'a', 'r', 'e', 'r', ' '] ++ t) := rfl
  rw [this] at hp ⊢
  rw [stripBearerAll_cons_hit hp]
  simp

theorem stripBearerAll_of_not_infix :
    ∀ s : List Char, ¬ bearerChars <:+: s → stripBearerAll s = s := by
  intro s
  induction s with
  | nil => intro _; rfl
  | cons c rest ih =>
    intro hni
    have hp : bearerChars.isPrefixOf (c :: rest) = false := by
      cases hb : bearerChars.isPrefixOf (c :: rest) with
      | false => rfl
      | true =>
        exact absurd (List.isPrefixOf_iff_prefix.mp hb).isInfix hni
    rw [stripBearerAll_cons_neg hp]
    rw [ih (fun h => hni (List.infix_cons h))]

theorem stripBearerAll_length_lt_of_infix :
    ∀ s : List Char, bearerChars <:+: s → (stripBearerAll s).length < s.length := by
  intro s
  induction s with
  | nil =>
    intro h
    rcases h with ⟨s1, s2, hs⟩
    have hlen := congrArg List.length hs
    simp [bearerChars] at hlen
  | cons c rest ih =>
    intro hi
    cases hb : bearerChars.isPrefixOf (c :: rest) with
    | true =>
      rw [stripBearerAll_cons_hit hb]
      have h1 : (stripBearerAll (List.drop 6 rest)).length ≤ (List.drop 6 rest).length :=
        stripBearerAll_length_le _
      have h2 : (List.drop 6 rest).length ≤ rest.length := by simp [List.length_drop]
      simp only [List.length_cons]
      omega
    | false =>
      have hrest : bearerChars <:+: rest := by
        rcases List.infix_cons_iff.mp hi with hpre | hinf
        · exact absurd (List.isPrefixOf_iff_prefix.mpr hpre) (by simp [hb])
        · exact hinf
      rw [stripBearerAll_cons_neg hb]
      simpa using Nat.succ_lt_succ (ih hrest)

/-- The deleted header equals the raw token exactly when the token does not
itself contain `"Bearer "`. -/
theorem stripBearerAll_eq_self_iff (t : List Char) :
    stripBearerAll t = t ↔ ¬ bearerChars <:+: t := by
  constructor
  · intro h hi
    have := stripBearerAll_length_lt_of_infix t hi
    rw [h] at this
    omega
  · exact stripBearerAll_of_not_infix t

/-! ### Lemmas about `require_auth` and `get_current_user` -/

theorem userFromPayload_calls (users : List UserRec) (p : Option TokenPayload) :
    (userFromPayload users p).2 = [] ∨ (userFromPayload users p).2 = [StoreCall.userGetByEmail] := by
  rcases p with _ | p
  · exact Or.inl rfl
  · rcases hs : p.sub with _ | sub
    · simp [userFromPayload, hs]
    · rcases hu : UsersRepository.get_by_email users sub with _ | u <;>
        simp [userFromPayload, hs, hu]

theorem get_current_user_calls (verify : List Char → Option TokenPayload)
    (users : List UserRec) (a : List Char) :
    (get_current_user verify users a).2 = [] ∨
      (get_current_user verify users a).2 = [StoreCall.userGetByEmail] := by
  unfold get_current_user
  split
  · exact Or.inl rfl
  · exact userFromPayload_calls users _

theorem require_auth_ok (handler : Store → Event → HOut)
    (verify : List Char → Option TokenPayload) (st : Store) (e : Event)
    {a : List Char} {u : UserView} {cs : List StoreCall}
    (hA : pickAuth e = some a) (hne : a ≠ [])
    (hu : get_current_user verify st.users a = (some u, cs)) :
    require_auth handler verify st e =
      ⟨(handler st { e with user := some u }).resp,
       (handler st { e with user := some u }).store,
       cs ++ (handler st { e with user := some u }).calls⟩ := by
  unfold require_auth
  rw [hA]
  simp only [if_neg hne, hu]

theorem require_auth_unauthorized (handler : Store → Event → HOut)
    (verify : List Char → Option TokenPayload) (st : Store) (e : Event)
    (hf : pickAuth e = none ∨ ∃ a, pickAuth e = some a ∧
        (a = [] ∨ bearerChars.isPrefixOf a = false ∨ verify (stripBearerAll a) = none)) :
    (require_auth handler verify st e).resp.statusCode = 401 ∧
      (require_auth handler verify st e).store = st ∧
      (require_auth handler verify st e).calls = [] := by
  rcases hf with hf | ⟨a, ha, hcase⟩
  · unfold require_auth
    rw [hf]
    exact ⟨rfl, rfl, rfl⟩
  · by_cases he : a = []
    · subst he
      unfold require_auth
      rw [ha]
      simp [error_response]
    · have hnone : get_current_user verify st.users a = (none, []) := by
        unfold get_current_user
        rcases hcase with h1 | h2 | h3
        · exact absurd h1 he
        · rw [if_pos (Or.inr (by simp [h2]))]
        · by_cases hp : bearerChars.isPrefixOf a
          · rw [if_neg (by simp [he, hp]), h3]
            rfl
          · rw [if_pos (Or.inr (by simpa using hp))]
      unfold require_auth
      rw [ha]
      simp only [if_neg he, hnone]
      simp [error_response]

/-! ### Lemmas about the pydantic validation -/

theorem taskCreate_parse_error_of_missing (b : JObj)
    (hb : b.title = none ∨ b.title = some JVal.jnull ∨
          b.description = none ∨ b.description = some JVal.jnull) :
    ∃ m, TaskCreate.parse b = Except.error m := by
  unfold TaskCreate.parse
  rcases ht : parseRequiredStr b.title with m | title
  · exact ⟨m, rfl⟩
  · rcases hd : parseRequiredStr b.description with m | description
    · exact ⟨m, rfl⟩
    · exfalso
      rcases hb with h | h | h | h
      · rw [h] at ht; simp [parseRequiredStr] at ht
      · rw [h] at ht; simp [parseRequiredStr] at ht
      · rw [h] at hd; simp [parseRequiredStr] at hd
      · rw [h] at hd; simp [parseRequiredStr] at hd

theorem taskCreate_parse_error_of_bad_status (b : JObj)
    (hb : b.status = some JVal.jnull ∨
          ∃ s, b.status = some (JVal.jstr s) ∧ s ∉ TASK_STATUS) :
    ∃ m, TaskCreate.parse b = Except.error m := by
  unfold TaskCreate.parse
  rcases ht : parseRequiredStr b.title with m | title
  · exact ⟨m, rfl⟩
  · rcases hd : parseRequiredStr b.description with m | description
    · exact ⟨m, rfl⟩
    · rcases hb with h | ⟨s, hs, hmem⟩
      · rw [h]
        exact ⟨_, rfl⟩
      · rw [hs]
        refine ⟨"Status must be one of TASK_STATUS", ?_⟩
        simp [parseStatusCreate, hmem]

theorem taskCreate_parse_ok_status (b : JObj) (d : TaskCreateData)
    (h : TaskCreate.parse b = Except.ok d) :
    (b.status = none → d.status = "todo") ∧
      (∀ s, b.status = some (JVal.jstr s) → d.status = s) := by
  unfold TaskCreate.parse at h
  rcases ht : parseRequiredStr b.title with m | title <;> rw [ht] at h
  · exact absurd h (by simp)
  · rcases hd : parseRequiredStr b.description with m | description <;> rw [hd] at h
    · exact absurd h (by simp)
    · constructor
      · intro hs
        rw [hs] at h
        simp only [parseStatusCreate] at h
        cases h
        rfl
      · intro s hs
        rw [hs] at h
        simp only [parseStatusCreate] at h
        by_cases hmem : s ∈ TASK_STATUS
        · rw [if_pos hmem] at h
          cases h
          rfl
        · rw [if_neg hmem] at h
          exact absurd h (by simp)

theorem taskUpdate_parse_ok_nulls (b : JObj) (u : TaskUpdateData)
    (h : TaskUpdate.parse b = Except.ok u) :
    (b.title = some JVal.jnull ∨ b.title = none → u.title = none) ∧
      (b.description = some JVal.jnull ∨ b.description = none → u.description = none) ∧
      (b.status = some JVal.jnull ∨ b.status = none → u.status = none) := by
  unfold TaskUpdate.parse at h
  rcases ht : parseOptionalStr b.title with m | title <;> rw [ht] at h
  · exact absurd h (by simp)
  · rcases hd : parseOptionalStr b.description with m | description <;> rw [hd] at h
    · exact absurd h (by simp)
    · rcases hs : parseStatusUpdate b.status with m | status <;> rw [hs] at h
      · exact absurd h (by simp)
      · cases h
        refine ⟨?_, ?_, ?_⟩
        · rintro (h1 | h1) <;> rw [h1] at ht <;> simpa [parseOptionalStr] using ht.symm
        · rintro (h1 | h1) <;> rw [h1] at hd <;> simpa [parseOptionalStr] using hd.symm
        · rintro (h1 | h1) <;> rw [h1] at hs <;> simpa [parseStatusUpdate] using hs.symm

/-! ### Lemmas about the repositories -/

theorem get_by_email_email {users : List UserRec} {em : String} {u : UserRec}
    (h : UsersRepository.get_by_email users em = some u) : u.email = em := by
  have := List.find?_some h
  simpa using this

theorem mem_setFirst_of_ne {l : List TaskRec} {i : String} {t2 x : TaskRec}
    (hx : x ∈ l) (hne : x.id ≠ i) : x ∈ setFirst i t2 l := by
  induction l with
  | nil => cases hx
  | cons t rest ih =>
    rcases List.mem_cons.mp hx with rfl | hx2
    · have hb : (x.id == i) = false := by simp [hne]
      simp [setFirst, hb]
    · cases hb : t.id == i with
      | false =>
        simp only [setFirst, hb]
        simp [ih hx2]
      | true =>
        simp only [setFirst, hb]
        simp [hx2]

theorem update_none_of_unresolved (st : Store) (task_id : String)
    (u : TaskUpdateData) (now : Nat)
    (h : ¬ (ObjectId.is_valid task_id = true ∧ ∃ t ∈ st.tasks, t.id = task_id)) :
    TasksRepository.update st task_id u now = (none, st) := by
  unfold TasksRepository.update
  by_cases hv : ObjectId.is_valid task_id
  · rw [if_pos hv]
    rcases hf : st.tasks.find? (fun t => t.id == task_id) with _ | t
    · rw [hf]
    · exfalso
      apply h
      refine ⟨hv, t, List.mem_of_find?_eq_some hf, ?_⟩
      simpa using List.find?_some hf
  · rw [if_neg hv]

theorem delete_false_of_unresolved (st : Store) (task_id : String)
    (h : ¬ (ObjectId.is_valid task_id = true ∧ ∃ t ∈ st.tasks, t.id = task_id)) :
    TasksRepository.delete st task_id = (false, st) := by
  unfold TasksRepository.delete
  by_cases hv : ObjectId.is_valid task_id
  · rw [if_pos hv]
    have hany : st.tasks.any (fun t => t.id == task_id) = false := by
      rw [List.any_eq_false]
      intro t ht
      simp only [beq_iff_eq]
      intro hid
      exact h ⟨hv, t, ht, hid⟩
    rw [hany]
    simp
  · rw [if_neg hv]

/-! ### Status codes reachable from the update/delete handlers -/

theorem require_auth_eq_missing_none (handler : Store → Event → HOut)
    (verify : List Char → Option TokenPayload) (st : Store) (e : Event)
    (hA : pickAuth e = none) :
    require_auth handler verify st e =
      ⟨error_response "Unauthorized: Missing authorization header" 401, st, []⟩ := by
  unfold require_auth
  rw [hA]

theorem require_auth_eq_missing_empty (handler : Store → Event → HOut)
    (verify : List Char → Option TokenPayload) (st : Store) (e : Event)
    (hA : pickAuth e = some []) :
    require_auth handler verify st e =
      ⟨error_response "Unauthorized: Missing authorization header" 401, st, []⟩ := by
  unfold require_auth
  rw [hA]
  simp

theorem require_auth_eq_invalid (handler : Store → Event → HOut)
    (verify : List Char → Option TokenPayload) (st : Store) (e : Event)
    {a : List Char} {cs : List StoreCall}
    (hA : pickAuth e = some a) (hne : a ≠ [])
    (hu : get_current_user verify st.users a = (none, cs)) :
    require_auth handler verify st e =
      ⟨error_response "Unauthorized: Invalid token" 401, st, cs⟩ := by
  unfold require_auth
  rw [hA]
  simp only [if_neg hne, hu]

theorem require_auth_resp_cases (handler : Store → Event → HOut)
    (verify : List Char → Option TokenPayload) (st : Store) (e : Event) :
    (require_auth handler verify st e).resp.statusCode = 401 ∨
      ∃ u, (require_auth handler verify st e).resp =
        (handler st { e with user := some u }).resp := by
  rcases hA : pickAuth e with _ | a
  · rw [require_auth_eq_missing_none handler verify st e hA]
    exact Or.inl rfl
  · by_cases he : a = []
    · subst he
      rw [require_auth_eq_missing_empty handler verify st e hA]
      exact Or.inl rfl
    · rcases hu : get_current_user verify st.users a with ⟨u_opt, cs⟩
      rcases u_opt with _ | u
      · rw [require_auth_eq_invalid handler verify st e hA he hu]
        exact Or.inl rfl
      · rw [require_auth_ok handler verify st e hA he hu]
        exact Or.inr ⟨u, rfl⟩

theorem update_task_handler_not_500 (loads : String → Option JObj) (now : Nat)
    (st : Store) (e : Event) :
    (update_task_handler loads now st e).resp.statusCode ≠ 500 := by
  unfold update_task_handler
  split
  · simp [error_response]
  · split
    · simp [error_response]
    · split
      · simp [error_response]
      · split
        · simp [error_response]
        · simp [success_response]

theorem delete_task_handler_not_500 (st : Store) (e : Event) :
    (delete_task_handler st e).resp.statusCode ≠ 500 := by
  unfold delete_task_handler
  split
  · simp [error_response]
  · split
    · simp [error_response]
    · split
      · simp [error_response]
      · simp [success_response]

theorem update_task_not_500 (loads : String → Option JObj)
    (verify : List Char → Option TokenPayload) (now : Nat) (st : Store) (e : Event) :
    (update_task loads verify now st e).resp.statusCode ≠ 500 := by
  unfold update_task
  rcases require_auth_resp_cases (update_task_handler loads now) verify st e with h | ⟨u, h⟩
  · omega
  · rw [h]
    exact update_task_handler_not_500 loads now st _

theorem delete_task_not_500 (verify : List Char → Option TokenPayload)
    (st : Store) (e : Event) :
    (delete_task verify st e).resp.statusCode ≠ 500 := by
  unfold delete_task
  rcases require_auth_resp_cases delete_task_handler verify st e with h | ⟨u, h⟩
  · omega
  · rw [h]
    exact delete_task_handler_not_500 st _

/-! ### Branch equations for the handlers -/

theorem authenticate_user_wrong {users : List UserRec} {em pw : String} {u : UserRec}
    (hu : UsersRepository.get_by_email users em = some u) (hne : u.password ≠ pw) :
    authenticate_user users em pw = none := by
  unfold authenticate_user
  rw [hu]
  simp [hne]

theorem authenticate_user_right {users : List UserRec} {em pw : String} {u : UserRec}
    (hu : UsersRepository.get_by_email users em = some u) (heq : u.password = pw) :
    authenticate_user users em pw = some (stripPassword u) := by
  unfold authenticate_user
  rw [hu]
  simp [heq]

/-- The single-document `$set` applied by `TasksRepository.update`
(db.py lines 80-87): provided fields replaced, `updated_at` refreshed. -/
def applyUpdate (t : TaskRec) (ud : TaskUpdateData) (now : Nat) : TaskRec :=
  { t with
    title := ud.title.getD t.title,
    description := ud.description.getD t.description,
    status := ud.status.getD t.status,
    updated_at := some now }

theorem update_found (st : Store) (i : String) (ud : TaskUpdateData) (now : Nat)
    {t : TaskRec}
    (hvalid : ObjectId.is_valid i = true)
    (hfind : st.tasks.find? (fun x => x.id == i) = some t) :
    TasksRepository.update st i ud now =
      (some (applyUpdate t ud now),
       { st with tasks := setFirst i (applyUpdate t ud now) st.tasks }) := by
  unfold TasksRepository.update applyUpdate
  rw [if_pos hvalid, hfind]

theorem update_task_handler_ok {loads : String → Option JObj} {now : Nat}
    {st : Store} {e : Event} {i : String} {ud : TaskUpdateData}
    {t2 : TaskRec} {st2 : Store}
    (hid : e.pathId = some i) (hine : i ≠ "")
    (hp : TaskUpdate.parse (parse_event_body loads e) = Except.ok ud)
    (hrepo : TasksRepository.update st i ud now = (some t2, st2)) :
    update_task_handler loads now st e =
      ⟨success_response (Payload.task t2) 200, st2, [StoreCall.taskUpdate]⟩ := by
  unfold update_task_handler
  rw [hid]
  simp only [if_neg hine, hp, hrepo]

theorem update_task_handler_notfound {loads : String → Option JObj} {now : Nat}
    {st : Store} {e : Event} {i : String} {ud : TaskUpdateData} {st2 : Store}
    (hid : e.pathId = some i) (hine : i ≠ "")
    (hp : TaskUpdate.parse (parse_event_body loads e) = Except.ok ud)
    (hrepo : TasksRepository.update st i ud now = (none, st2)) :
    update_task_handler loads now st e =
      ⟨error_response ("Task with ID " ++ i ++ " not found") 404, st2,
       [StoreCall.taskUpdate]⟩ := by
  unfold update_task_handler
  rw [hid]
  simp only [if_neg hine, hp, hrepo]

theorem delete_task_handler_notfound {st : Store} {e : Event} {i : String} {st2 : Store}
    (hid : e.pathId = some i) (hine : i ≠ "")
    (hrepo : TasksRepository.delete st i = (false, st2)) :
    delete_task_handler st e =
      ⟨error_response ("Task with ID " ++ i ++ " not found") 404, st2,
       [StoreCall.taskDelete]⟩ := by
  unfold delete_task_handler
  rw [hid]
  simp only [if_neg hine, hrepo]

theorem create_task_handler_invalid {loads : String → Option JObj} {newId : String}
    {now : Nat} {st : Store} {e : Event} {m : String}
    (hp : TaskCreate.parse (parse_event_body loads e) = Except.error m) :
    create_task_handler loads newId now st e =
      ⟨error_response ("Invalid task data: " ++ m) 422, st, []⟩ := by
  unfold create_task_handler
  rw [hp]

theorem create_task_handler_valid {loads : String → Option JObj} {newId : String}
    {now : Nat} {st : Store} {e : Event} {d : TaskCreateData}
    (hp : TaskCreate.parse (parse_event_body loads e) = Except.ok d) :
    create_task_handler loads newId now st e =
      ⟨success_response
        (Payload.task
          { id := newId, title := d.title, description := d.description,
            status := d.status, created_at := now, updated_at := none }) 201,
       { st with tasks := st.tasks ++
          [{ id := newId, title := d.title, description := d.description,
             status := d.status, created_at := now, updated_at := none }] },
       [StoreCall.taskCreate]⟩ := by
  unfold create_task_handler
  rw [hp]
  rfl

/-! ### The claims -/

/-- C1, counterexample: the claim states that a create request whose title or
description is the empty string is rejected with 422 and not persisted.  On
the code, a create request with `title = ""` and `description = ""` (valid
bearer token, user present in the store) is answered with 201 and the task is
inserted into the store: pydantic `str` fields accept the empty string. -/
theorem claim1_counterexample :
    create_task (fun _ => none)
      (fun s => if s = "tok".toList then some { sub := some "admin@example.com", exp := 0 } else none)
      "aaaaaaaaaaaaaaaaaaaaaaaa" 7
      ⟨[], [⟨"u1", "admin@example.com", "admin", "password123", 0⟩]⟩
      { authUpper := some ("Bearer tok".toList),
        body := BodyVal.pyobj { title := some (JVal.jstr ""), description := some (JVal.jstr "") } } =
    ⟨success_response (Payload.task ⟨"aaaaaaaaaaaaaaaaaaaaaaaa", "", "", "todo", 7, none⟩) 201,
     ⟨[⟨"aaaaaaaaaaaaaaaaaaaaaaaa", "", "", "todo", 7, none⟩],
      [⟨"u1", "admin@example.com", "admin", "password123", 0⟩]⟩,
     [StoreCall.userGetByEmail, StoreCall.taskCreate]⟩ := by
  decide

/-- C1, amended: for every authenticated create-task request, the title and
description fields are required: a request whose title or description is
absent or null is rejected with status 422, the store is unchanged, and the
store's create operation is not invoked.  (Empty strings are accepted, see
the counterexample.) -/
theorem claim1_amended (loads : String → Option JObj)
    (verify : List Char → Option TokenPayload) (newId : String) (now : Nat)
    (st : Store) (e : Event) {a : List Char} {u : UserView} {cs : List StoreCall}
    (hA : pickAuth e = some a) (hne : a ≠ [])
    (hu : get_current_user verify st.users a = (some u, cs))
    (hb : (parse_event_body loads e).title = none ∨
          (parse_event_body loads e).title = some JVal.jnull ∨
          (parse_event_body loads e).description = none ∨
          (parse_event_body loads e).description = some JVal.jnull) :
    (create_task loads verify newId now st e).resp.statusCode = 422 ∧
      (create_task loads verify newId now st e).store = st ∧
      StoreCall.taskCreate ∉ (create_task loads verify newId now st e).calls := by
  have hra := require_auth_ok (create_task_handler loads newId now) verify st e hA hne hu
  have hcalls : cs = [] ∨ cs = [StoreCall.userGetByEmail] := by
    have h2 := get_current_user_calls verify st.users a
    rw [hu] at h2
    exact h2
  obtain ⟨m, hm⟩ :=
    taskCreate_parse_error_of_missing (parse_event_body loads { e with user := some u }) hb
  unfold create_task
  rw [hra, create_task_handler_invalid hm]
  refine ⟨rfl, rfl, ?_⟩
  rcases hcalls with h | h <;> subst h <;> simp

/-- C1, witness for the amended claim: a concrete authenticated create
request whose body lacks the title field is answered with 422, leaves the
store unchanged, and invokes no create operation. -/
theorem claim1_witness :
    (create_task (fun _ => none)
      (fun s => if s = "tok".toList then some { sub := some "admin@example.com", exp := 0 } else none)
      "aaaaaaaaaaaaaaaaaaaaaaaa" 7
      ⟨[], [⟨"u1", "admin@example.com", "admin", "password123", 0⟩]⟩
      { authUpper := some ("Bearer tok".toList),
        body := BodyVal.pyobj { description := some (JVal.jstr "d") } }).resp.statusCode = 422 ∧
    (create_task (fun _ => none)
      (fun s => if s = "tok".toList then some { sub := some "admin@example.com", exp := 0 } else none)
      "aaaaaaaaaaaaaaaaaaaaaaaa" 7
      ⟨[], [⟨"u1", "admin@example.com", "admin", "password123", 0⟩]⟩
      { authUpper := some ("Bearer tok".toList),
        body := BodyVal.pyobj { description := some (JVal.jstr "d") } }).store =
      ⟨[], [⟨"u1", "admin@example.com", "admin", "password123", 0⟩]⟩ ∧
    StoreCall.taskCreate ∉ (create_task (fun _ => none)
      (fun s => if s = "tok".toList then some { sub := some "admin@example.com", exp := 0 } else none)
      "aaaaaaaaaaaaaaaaaaaaaaaa" 7
      ⟨[], [⟨"u1", "admin@example.com", "admin", "password123", 0⟩]⟩
      { authUpper := some ("Bearer tok".toList),
        body := BodyVal.pyobj { description := some (JVal.jstr "d") } }).calls :=
  claim1_amended (fun _ => none)
    (fun s => if s = "tok".toList then some { sub := some "admin@example.com", exp := 0 } else none)
    "aaaaaaaaaaaaaaaaaaaaaaaa" 7
    ⟨[], [⟨"u1", "admin@example.com", "admin", "password123", 0⟩]⟩
    { authUpper := some ("Bearer tok".toList),
      body := BodyVal.pyobj { description := some (JVal.jstr "d") } }
    rfl (by decide) rfl (Or.inl rfl)

/-- C2: for every request to a protected handler (list, create, update,
delete) whose Authorization header is missing, does not start with
`"Bearer "`, or carries a token the verifier rejects, the handler answers
401, the store is unchanged, and no repository operation at all (in
particular none of get_all, create, update, delete) is invoked. -/
theorem claim2_unauthorized_before_store (loads : String → Option JObj)
    (verify : List Char → Option TokenPayload) (newId : String) (now : Nat)
    (st : Store) (e : Event)
    (hf : pickAuth e = none ∨ ∃ a, pickAuth e = some a ∧
        (a = [] ∨ bearerChars.isPrefixOf a = false ∨ verify (stripBearerAll a) = none)) :
    ((get_tasks verify st e).resp.statusCode = 401 ∧
      (get_tasks verify st e).store = st ∧ (get_tasks verify st e).calls = []) ∧
    ((create_task loads verify newId now st e).resp.statusCode = 401 ∧
      (create_task loads verify newId now st e).store = st ∧
      (create_task loads verify newId now st e).calls = []) ∧
    ((update_task loads verify now st e).resp.statusCode = 401 ∧
      (update_task loads verify now st e).store = st ∧
      (update_task loads verify now st e).calls = []) ∧
    ((delete_task verify st e).resp.statusCode = 401 ∧
      (delete_task verify st e).store = st ∧ (delete_task verify st e).calls = []) :=
  ⟨require_auth_unauthorized get_tasks_handler verify st e hf,
   require_auth_unauthorized (create_task_handler loads newId now) verify st e hf,
   require_auth_unauthorized (update_task_handler loads now) verify st e hf,
   require_auth_unauthorized delete_task_handler verify st e hf⟩

/-- C2, witness: a concrete request whose Authorization header holds a token
the verifier rejects is answered 401 by all four protected handlers, with no
store call and no store change. -/
theorem claim2_witness :
    ((get_tasks (fun _ => none) ⟨[], []⟩
        { authUpper := some ("Bearer bad".toList) }).resp.statusCode = 401 ∧
      (get_tasks (fun _ => none) ⟨[], []⟩
        { authUpper := some ("Bearer bad".toList) }).store = ⟨[], []⟩ ∧
      (get_tasks (fun _ => none) ⟨[], []⟩
        { authUpper := some ("Bearer bad".toList) }).calls = []) ∧
    ((create_task (fun _ => none) (fun _ => none) "x" 0 ⟨[], []⟩
        { authUpper := some ("Bearer bad".toList) }).resp.statusCode = 401 ∧
      (create_task (fun _ => none) (fun _ => none) "x" 0 ⟨[], []⟩
        { authUpper := some ("Bearer bad".toList) }).store = ⟨[], []⟩ ∧
      (create_task (fun _ => none) (fun _ => none) "x" 0 ⟨[], []⟩
        { authUpper := some ("Bearer bad".toList) }).calls = []) ∧
    ((update_task (fun _ => none) (fun _ => none) 0 ⟨[], []⟩
        { authUpper := some ("Bearer bad".toList) }).resp.statusCode = 401 ∧
      (update_task (fun _ => none) (fun _ => none) 0 ⟨[], []⟩
        { authUpper := some ("Bearer bad".toList) }).store = ⟨[], []⟩ ∧
      (update_task (fun _ => none) (fun _ => none) 0 ⟨[], []⟩
        { authUpper := some ("Bearer bad".toList) }).calls = []) ∧
    ((delete_task (fun _ => none) ⟨[], []⟩
        { authUpper := some ("Bearer bad".toList) }).resp.statusCode = 401 ∧
      (delete_task (fun _ => none) ⟨[], []⟩
        { authUpper := some ("Bearer bad".toList) }).store = ⟨[], []⟩ ∧
      (delete_task (fun _ => none) ⟨[], []⟩
        { authUpper := some ("Bearer bad".toList) }).calls = []) :=
  claim2_unauthorized_before_store (fun _ => none) (fun _ => none) "x" 0 ⟨[], []⟩
    { authUpper := some ("Bearer bad".toList) }
    (Or.inr ⟨"Bearer bad".toList, rfl, Or.inr (Or.inr rfl)⟩)

/-- C3: for every authenticated create-task request whose status field is
present and invalid (null, or a string outside todo/in_progress/completed),
the handler answers 422, the store is unchanged, and the store's create
operation is never invoked. -/
theorem claim3_invalid_status_rejected (loads : String → Option JObj)
    (verify : List Char → Option TokenPayload) (newId : String) (now : Nat)
    (st : Store) (e : Event) {a : List Char} {u : UserView} {cs : List StoreCall}
    (hA : pickAuth e = some a) (hne : a ≠ [])
    (hu : get_current_user verify st.users a = (some u, cs))
    (hs : (parse_event_body loads e).status = some JVal.jnull ∨
          ∃ s, (parse_event_body loads e).status = some (JVal.jstr s) ∧ s ∉ TASK_STATUS) :
    (create_task loads verify newId now st e).resp.statusCode = 422 ∧
      (create_task loads verify newId now st e).store = st ∧
      StoreCall.taskCreate ∉ (create_task loads verify newId now st e).calls := by
  have hra := require_auth_ok (create_task_handler loads newId now) verify st e hA hne hu
  have hcalls : cs = [] ∨ cs = [StoreCall.userGetByEmail] := by
    have h2 := get_current_user_calls verify st.users a
    rw [hu] at h2
    exact h2
  obtain ⟨m, hm⟩ :=
    taskCreate_parse_error_of_bad_status (parse_event_body loads { e with user := some u }) hs
  unfold create_task
  rw [hra, create_task_handler_invalid hm]
  refine ⟨rfl, rfl, ?_⟩
  rcases hcalls with h | h <;> subst h <;> simp

/-- C3, witness: a concrete authenticated create request whose status is the
string "invalid" is answered 422 with no create call and no store change. -/
theorem claim3_witness :
    (create_task (fun _ => none)
      (fun s => if s = "tok".toList then some { sub := some "admin@example.com", exp := 0 } else none)
      "aaaaaaaaaaaaaaaaaaaaaaaa" 7
      ⟨[], [⟨"u1", "admin@example.com", "admin", "password123", 0⟩]⟩
      { authUpper := some ("Bearer tok".toList),
        body := BodyVal.pyobj ({ title := some (JVal.jstr "t"), description := some (JVal.jstr "d"), status := some (JVal.jstr "invalid") }) }).resp.statusCode = 422 ∧
    (create_task (fun _ => none)
      (fun s => if s = "tok".toList then some { sub := some "admin@example.com", exp := 0 } else none)
      "aaaaaaaaaaaaaaaaaaaaaaaa" 7
      ⟨[], [⟨"u1", "admin@example.com", "admin", "password123", 0⟩]⟩
      { authUpper := some ("Bearer tok".toList),
        body := BodyVal.pyobj ({ title := some (JVal.jstr "t"), description := some (JVal.jstr "d"), status := some (JVal.jstr "invalid") }) }).store =
      ⟨[], [⟨"u1", "admin@example.com", "admin", "password123", 0⟩]⟩ ∧
    StoreCall.taskCreate ∉ (create_task (fun _ => none)
      (fun s => if s = "tok".toList then some { sub := some "admin@example.com", exp := 0 } else none)
      "aaaaaaaaaaaaaaaaaaaaaaaa" 7
      ⟨[], [⟨"u1", "admin@example.com", "admin", "password123", 0⟩]⟩
      { authUpper := some ("Bearer tok".toList),
        body := BodyVal.pyobj ({ title := some (JVal.jstr "t"), description := some (JVal.jstr "d"), status := some (JVal.jstr "invalid") }) }).calls :=
  claim3_invalid_status_rejected (fun _ => none)
    (fun s => if s = "tok".toList then some { sub := some "admin@example.com", exp := 0 } else none)
    "aaaaaaaaaaaaaaaaaaaaaaaa" 7
    ⟨[], [⟨"u1", "admin@example.com", "admin", "password123", 0⟩]⟩
    { authUpper := some ("Bearer tok".toList),
      body := BodyVal.pyobj ({ title := some (JVal.jstr "t"), description := some (JVal.jstr "d"), status := some (JVal.jstr "invalid") }) }
    rfl (by decide) rfl (Or.inr ⟨"invalid", rfl, by decide⟩)

/-- C4: for every valid authenticated create-task request, the handler
answers 201 with the created record: it carries the generated id, the
declared title/description/status, the server-set created timestamp and a
null updated timestamp, and the same record is appended to the store.  The
status is `"todo"` when the status field was omitted and the declared status
otherwise. -/
theorem claim4_create_valid (loads : String → Option JObj)
    (verify : List Char → Option TokenPayload) (newId : String) (now : Nat)
    (st : Store) (e : Event) {a : List Char} {u : UserView} {cs : List StoreCall}
    {d : TaskCreateData}
    (hA : pickAuth e = some a) (hne : a ≠ [])
    (hu : get_current_user verify st.users a = (some u, cs))
    (hp : TaskCreate.parse (parse_event_body loads e) = Except.ok d) :
    (create_task loads verify newId now st e).resp =
      success_response (Payload.task ⟨newId, d.title, d.description, d.status, now, none⟩) 201 ∧
    (create_task loads verify newId now st e).store.tasks =
      st.tasks ++ [⟨newId, d.title, d.description, d.status, now, none⟩] ∧
    ((parse_event_body loads e).status = none → d.status = "todo") ∧
    (∀ s, (parse_event_body loads e).status = some (JVal.jstr s) → d.status = s) := by
  have hra := require_auth_ok (create_task_handler loads newId now) verify st e hA hne hu
  have hp2 : TaskCreate.parse (parse_event_body loads { e with user := some u }) =
      Except.ok d := hp
  unfold create_task
  rw [hra, create_task_handler_valid hp2]
  exact ⟨rfl, rfl, (taskCreate_parse_ok_status _ _ hp).1, (taskCreate_parse_ok_status _ _ hp).2⟩

/-- C4, witness: a concrete authenticated create request that omits the
status field is answered 201 with a record whose status is todo, whose
created timestamp is the creation instant, whose updated timestamp is null
and whose id is the generated one; the record is appended to the store. -/
theorem claim4_witness :
    (create_task (fun _ => none)
      (fun s => if s = "tok".toList then some { sub := some "admin@example.com", exp := 0 } else none)
      "aaaaaaaaaaaaaaaaaaaaaaaa" 7
      ⟨[], [⟨"u1", "admin@example.com", "admin", "password123", 0⟩]⟩
      { authUpper := some ("Bearer tok".toList),
        body := BodyVal.pyobj { title := some (JVal.jstr "t"), description := some (JVal.jstr "d") } }).resp =
      success_response (Payload.task ⟨"aaaaaaaaaaaaaaaaaaaaaaaa", "t", "d", "todo", 7, none⟩) 201 ∧
    (create_task (fun _ => none)
      (fun s => if s = "tok".toList then some { sub := some "admin@example.com", exp := 0 } else none)
      "aaaaaaaaaaaaaaaaaaaaaaaa" 7
      ⟨[], [⟨"u1", "admin@example.com", "admin", "password123", 0⟩]⟩
      { authUpper := some ("Bearer tok".toList),
        body := BodyVal.pyobj { title := some (JVal.jstr "t"), description := some (JVal.jstr "d") } }).store.tasks =
      [⟨"aaaaaaaaaaaaaaaaaaaaaaaa", "t", "d", "todo", 7, none⟩] := by
  have h := claim4_create_valid (fun _ => none)
    (fun s => if s = "tok".toList then some { sub := some "admin@example.com", exp := 0 } else none)
    "aaaaaaaaaaaaaaaaaaaaaaaa" 7
    ⟨[], [⟨"u1", "admin@example.com", "admin", "password123", 0⟩]⟩
    { authUpper := some ("Bearer tok".toList),
      body := BodyVal.pyobj { title := some (JVal.jstr "t"), description := some (JVal.jstr "d") } }
    rfl (by decide) rfl rfl
  exact ⟨h.1, h.2.1⟩

/-- C5: for every authenticated partial update of an existing task, the
stored record after the update keeps every field that the request body did
not include or sent as null (title, description, status are only replaced
when a non-null value was provided; id and created timestamp are never
touched), the updated timestamp is refreshed to the update instant, only the
addressed document changes, and the handler answers 200 with the updated
record. -/
theorem claim5_partial_update (loads : String → Option JObj)
    (verify : List Char → Option TokenPayload) (now : Nat)
    (st : Store) (e : Event) (i : String)
    {a : List Char} {uv : UserView} {cs : List StoreCall}
    {t : TaskRec} {ud : TaskUpdateData}
    (hA : pickAuth e = some a) (hne : a ≠ [])
    (hu : get_current_user verify st.users a = (some uv, cs))
    (hid : e.pathId = some i) (hine : i ≠ "")
    (hp : TaskUpdate.parse (parse_event_body loads e) = Except.ok ud)
    (hvalid : ObjectId.is_valid i = true)
    (hfind : st.tasks.find? (fun x => x.id == i) = some t) :
    (update_task loads verify now st e).resp =
      success_response (Payload.task (applyUpdate t ud now)) 200 ∧
    (applyUpdate t ud now).updated_at = some now ∧
    (ud.title = none → (applyUpdate t ud now).title = t.title) ∧
    (ud.description = none → (applyUpdate t ud now).description = t.description) ∧
    (ud.status = none → (applyUpdate t ud now).status = t.status) ∧
    (applyUpdate t ud now).id = t.id ∧
    (applyUpdate t ud now).created_at = t.created_at ∧
    (update_task loads verify now st e).store.tasks = setFirst i (applyUpdate t ud now) st.tasks ∧
    (∀ x ∈ st.tasks, x.id ≠ i → x ∈ (update_task loads verify now st e).store.tasks) ∧
    ((parse_event_body loads e).title = some JVal.jnull → ud.title = none) ∧
    ((parse_event_body loads e).description = some JVal.jnull → ud.description = none) ∧
    ((parse_event_body loads e).status = some JVal.jnull → ud.status = none) := by
  have hra := require_auth_ok (update_task_handler loads now) verify st e hA hne hu
  have hid2 : ({ e with user := some uv } : Event).pathId = some i := hid
  have hp2 : TaskUpdate.parse (parse_event_body loads { e with user := some uv }) =
      Except.ok ud := hp
  have hrepo := update_found st i ud now hvalid hfind
  have hnulls := taskUpdate_parse_ok_nulls _ _ hp
  unfold update_task
  rw [hra, update_task_handler_ok hid2 hine hp2 hrepo]
  refine ⟨rfl, rfl, ?_, ?_, ?_, rfl, rfl, rfl, ?_, ?_, ?_, ?_⟩
  · intro h; simp [applyUpdate, h]
  · intro h; simp [applyUpdate, h]
  · intro h; simp [applyUpdate, h]
  · intro x hx hxne
    exact mem_setFirst_of_ne hx hxne
  · exact fun h => hnulls.1 (Or.inl h)
  · exact fun h => hnulls.2.1 (Or.inl h)
  · exact fun h => hnulls.2.2 (Or.inl h)

/-- C5, witness: a concrete authenticated update that only provides the
status field keeps the stored title and description, refreshes the updated
timestamp, and answers 200 with the updated record. -/
theorem claim5_witness :
    (update_task (fun _ => none)
      (fun s => if s = "tok".toList then some { sub := some "admin@example.com", exp := 0 } else none)
      9
      ⟨[⟨"aaaaaaaaaaaaaaaaaaaaaaaa", "old title", "old desc", "todo", 3, none⟩],
       [⟨"u1", "admin@example.com", "admin", "password123", 0⟩]⟩
      { authUpper := some ("Bearer tok".toList),
        pathId := some "aaaaaaaaaaaaaaaaaaaaaaaa",
        body := BodyVal.pyobj { status := some (JVal.jstr "in_progress") } }).resp =
      success_response
        (Payload.task ⟨"aaaaaaaaaaaaaaaaaaaaaaaa", "old title", "old desc", "in_progress", 3, some 9⟩)
        200 ∧
    (update_task (fun _ => none)
      (fun s => if s = "tok".toList then some { sub := some "admin@example.com", exp := 0 } else none)
      9
      ⟨[⟨"aaaaaaaaaaaaaaaaaaaaaaaa", "old title", "old desc", "todo", 3, none⟩],
       [⟨"u1", "admin@example.com", "admin", "password123", 0⟩]⟩
      { authUpper := some ("Bearer tok".toList),
        pathId := some "aaaaaaaaaaaaaaaaaaaaaaaa",
        body := BodyVal.pyobj { status := some (JVal.jstr "in_progress") } }).store.tasks =
      [⟨"aaaaaaaaaaaaaaaaaaaaaaaa", "old title", "old desc", "in_progress", 3, some 9⟩] := by
  have h := claim5_partial_update (fun _ => none)
    (fun s => if s = "tok".toList then some { sub := some "admin@example.com", exp := 0 } else none)
    9
    ⟨[⟨"aaaaaaaaaaaaaaaaaaaaaaaa", "old title", "old desc", "todo", 3, none⟩],
     [⟨"u1", "admin@example.com", "admin", "password123", 0⟩]⟩
    { authUpper := some ("Bearer tok".toList),
      pathId := some "aaaaaaaaaaaaaaaaaaaaaaaa",
      body := BodyVal.pyobj { status := some (JVal.jstr "in_progress") } }
    "aaaaaaaaaaaaaaaaaaaaaaaa"
    rfl (by decide) rfl rfl (by decide) rfl (by decide) rfl
  exact ⟨h.1, h.2.2.2.2.2.2.2.1⟩

/-- C6, counterexample: the claim states that every update or delete request
whose path id does not resolve (including syntactically invalid store ids)
is answered 404.  On the code, a delete request with the empty path id is
answered 400, and an update request whose id "x" does not resolve but whose
body carries an invalid status is answered 422: the body is validated before
the store is consulted. -/
theorem claim6_counterexample :
    (delete_task
      (fun s => if s = "tok".toList then some { sub := some "admin@example.com", exp := 0 } else none)
      ⟨[], [⟨"u1", "admin@example.com", "admin", "password123", 0⟩]⟩
      { authUpper := some ("Bearer tok".toList), pathId := some "" }).resp.statusCode = 400 ∧
    (update_task (fun _ => none)
      (fun s => if s = "tok".toList then some { sub := some "admin@example.com", exp := 0 } else none)
      9
      ⟨[], [⟨"u1", "admin@example.com", "admin", "password123", 0⟩]⟩
      { authUpper := some ("Bearer tok".toList), pathId := some "x",
        body := BodyVal.pyobj { status := some (JVal.jstr "blah") } }).resp.statusCode = 422 := by
  decide

/-- C6, amended: for every authenticated update or delete request with a
non-empty path id that does not resolve to an existing record (including
ids that are not syntactically valid store identifiers), and — for update —
a body that passes validation, the handler answers 404; and the update and
delete handlers never answer 500 on any input.  (An empty path id is
answered 400 and an invalid update body 422, see the counterexample.) -/
theorem claim6_amended (loads : String → Option JObj)
    (verify : List Char → Option TokenPayload) (now : Nat)
    (st : Store) (e : Event) (i : String)
    {a : List Char} {uv : UserView} {cs : List StoreCall} {ud : TaskUpdateData}
    (hA : pickAuth e = some a) (hne : a ≠ [])
    (hu : get_current_user verify st.users a = (some uv, cs))
    (hid : e.pathId = some i) (hine : i ≠ "")
    (hp : TaskUpdate.parse (parse_event_body loads e) = Except.ok ud)
    (hnores : ¬ (ObjectId.is_valid i = true ∧ ∃ t ∈ st.tasks, t.id = i)) :
    (update_task loads verify now st e).resp.statusCode = 404 ∧
    (delete_task verify st e).resp.statusCode = 404 ∧
    (∀ (loads2 : String → Option JObj) (verify2 : List Char → Option TokenPayload)
        (now2 : Nat) (st2 : Store) (e2 : Event),
      (update_task loads2 verify2 now2 st2 e2).resp.statusCode ≠ 500) ∧
    (∀ (verify2 : List Char → Option TokenPayload) (st2 : Store) (e2 : Event),
      (delete_task verify2 st2 e2).resp.statusCode ≠ 500) := by
  have hra := require_auth_ok (update_task_handler loads now) verify st e hA hne hu
  have hrad := require_auth_ok delete_task_handler verify st e hA hne hu
  have hid2 : ({ e with user := some uv } : Event).pathId = some i := hid
  have hp2 : TaskUpdate.parse (parse_event_body loads { e with user := some uv }) =
      Except.ok ud := hp
  have hrepo := update_none_of_unresolved st i ud now hnores
  have hdel := delete_false_of_unresolved st i hnores
  refine ⟨?_, ?_,
    fun l2 v2 n2 s2 e2 => update_task_not_500 l2 v2 n2 s2 e2,
    fun v2 s2 e2 => delete_task_not_500 v2 s2 e2⟩
  · unfold update_task
    rw [hra, update_task_handler_notfound hid2 hine hp2 hrepo]
    rfl
  · unfold delete_task
    rw [hrad, delete_task_handler_notfound hid2 hine hdel]
    rfl

/-- C6, witness for the amended claim: a concrete authenticated update and
delete of the unresolvable id "x" are both answered 404. -/
theorem claim6_witness :
    (update_task (fun _ => none)
      (fun s => if s = "tok".toList then some { sub := some "admin@example.com", exp := 0 } else none)
      9
      ⟨[], [⟨"u1", "admin@example.com", "admin", "password123", 0⟩]⟩
      { authUpper := some ("Bearer tok".toList), pathId := some "x" }).resp.statusCode = 404 ∧
    (delete_task
      (fun s => if s = "tok".toList then some { sub := some "admin@example.com", exp := 0 } else none)
      ⟨[], [⟨"u1", "admin@example.com", "admin", "password123", 0⟩]⟩
      { authUpper := some ("Bearer tok".toList), pathId := some "x" }).resp.statusCode = 404 := by
  have h := claim6_amended (fun _ => none)
    (fun s => if s = "tok".toList then some { sub := some "admin@example.com", exp := 0 } else none)
    9
    ⟨[], [⟨"u1", "admin@example.com", "admin", "password123", 0⟩]⟩
    { authUpper := some ("Bearer tok".toList), pathId := some "x" }
    "x"
    rfl (by decide) rfl rfl (by decide) rfl (by decide)
  exact ⟨h.1, h.2.1⟩

/-- C7: for every login request — when the body's email or password is
missing, null or empty the handler answers 400; when the email resolves to a
stored user whose password differs the handler answers 401; when the
password matches the handler answers 200 with the token (whose embedded
subject equals the request email) and the stored user record with the
password field stripped. -/
theorem claim7_login (loads : String → Option JObj) (now : Nat) (st : Store) (e : Event) :
    ((jtruthy (parse_event_body loads e).email = none ∨
        jtruthy (parse_event_body loads e).password = none) →
      (login loads now st e).1.statusCode = 400) ∧
    (∀ em pw u, jtruthy (parse_event_body loads e).email = some em →
      jtruthy (parse_event_body loads e).password = some pw →
      UsersRepository.get_by_email st.users em = some u → u.password ≠ pw →
      (login loads now st e).1.statusCode = 401) ∧
    (∀ em pw u, jtruthy (parse_event_body loads e).email = some em →
      jtruthy (parse_event_body loads e).password = some pw →
      UsersRepository.get_by_email st.users em = some u → u.password = pw →
      (login loads now st e).1 =
        success_response
          (Payload.loginOk (create_access_token { sub := some u.email, exp := 0 } now)
            (stripPassword u)) 200 ∧
      (create_access_token { sub := some u.email, exp := 0 } now).sub = some em) := by
  refine ⟨?_, ?_, ?_⟩
  · intro h
    rcases h with h | h
    · unfold login
      rw [h]
      rfl
    · rcases he : jtruthy (parse_event_body loads e).email with _ | em
      · unfold login
        rw [he]
        rfl
      · unfold login
        rw [he, h]
        rfl
  · intro em pw u he hpw hgu hne
    unfold login
    rw [he, hpw]
    simp [authenticate_user_wrong hgu hne, error_response]
  · intro em pw u he hpw hgu heq
    constructor
    · unfold login
      rw [he, hpw]
      simp [authenticate_user_right hgu heq, stripPassword]
    · simp [create_access_token, get_by_email_email hgu]

/-- C7, witness: with the seeded user, a login with an empty body is 400, a
login with the wrong password is 401, and a login with the right password is
200 with a token whose subject is the email and the password-stripped user. -/
theorem claim7_witness :
    (login (fun _ => none) 0 ⟨[], [⟨"u1", "admin@example.com", "admin", "password123", 0⟩]⟩
      {}).1.statusCode = 400 ∧
    (login (fun _ => none) 0 ⟨[], [⟨"u1", "admin@example.com", "admin", "password123", 0⟩]⟩
      { body := BodyVal.pyobj { email := some (JVal.jstr "admin@example.com"), password := some (JVal.jstr "nope") } }).1.statusCode = 401 ∧
    (login (fun _ => none) 11 ⟨[], [⟨"u1", "admin@example.com", "admin", "password123", 0⟩]⟩
      { body := BodyVal.pyobj { email := some (JVal.jstr "admin@example.com"), password := some (JVal.jstr "password123") } }).1 =
      success_response
        (Payload.loginOk
          (create_access_token { sub := some "admin@example.com", exp := 0 } 11)
          (stripPassword ⟨"u1", "admin@example.com", "admin", "password123", 0⟩)) 200 := by
  refine ⟨?_, ?_, ?_⟩
  · exact (claim7_login (fun _ => none) 0
      ⟨[], [⟨"u1", "admin@example.com", "admin", "password123", 0⟩]⟩ {}).1 (Or.inl rfl)
  · exact (claim7_login (fun _ => none) 0
      ⟨[], [⟨"u1", "admin@example.com", "admin", "password123", 0⟩]⟩
      { body := BodyVal.pyobj { email := some (JVal.jstr "admin@example.com"), password := some (JVal.jstr "nope") } }).2.1
      "admin@example.com" "nope" ⟨"u1", "admin@example.com", "admin", "password123", 0⟩
      rfl rfl rfl (by decide)
  · exact ((claim7_login (fun _ => none) 11
      ⟨[], [⟨"u1", "admin@example.com", "admin", "password123", 0⟩]⟩
      { body := BodyVal.pyobj { email := some (JVal.jstr "admin@example.com"), password := some (JVal.jstr "password123") } }).2.2
      "admin@example.com" "password123" ⟨"u1", "admin@example.com", "admin", "password123", 0⟩
      rfl rfl rfl rfl).1

/-- C8: the statistics endpoint awaits the plain `int` returned by the
synchronous pymongo `count_documents`, which raises a `TypeError` that the
surrounding `except` swallows: the handler therefore returns all-zero
statistics on EVERY store, and on a store holding one task per status the
documented accurate counts would be `{todo 1, inProgress 1, completed 1}`,
which the handler does not return. -/
theorem claim8_statistics_always_zero :
    (∀ st : Store, api_get_task_statistics st = ⟨0, 0, 0⟩) ∧
    statusCounts ⟨[⟨"a", "t1", "d1", "todo", 0, none⟩,
                   ⟨"b", "t2", "d2", "in_progress", 0, none⟩,
                   ⟨"c", "t3", "d3", "completed", 0, none⟩], []⟩ = ⟨1, 1, 1⟩ ∧
    api_get_task_statistics ⟨[⟨"a", "t1", "d1", "todo", 0, none⟩,
                   ⟨"b", "t2", "d2", "in_progress", 0, none⟩,
                   ⟨"c", "t3", "d3", "completed", 0, none⟩], []⟩ ≠
      statusCounts ⟨[⟨"a", "t1", "d1", "todo", 0, none⟩,
                   ⟨"b", "t2", "d2", "in_progress", 0, none⟩,
                   ⟨"c", "t3", "d3", "completed", 0, none⟩], []⟩ :=
  ⟨fun _ => rfl, by decide, by decide⟩

/-- C9: for every Authorization header of the form `"Bearer " ++ t`, the
string `get_current_user` hands to the verifier is the header with every
occurrence of `"Bearer "` deleted (not merely the leading prefix), and that
string equals `t` exactly when `t` does not itself contain `"Bearer "` — a
token containing that substring is mangled before verification. -/
theorem claim9_bearer_deletion (verify : List Char → Option TokenPayload)
    (users : List UserRec) (t : List Char) :
    get_current_user verify users (bearerChars ++ t) =
      userFromPayload users (verify (stripBearerAll (bearerChars ++ t))) ∧
    stripBearerAll (bearerChars ++ t) = stripBearerAll t ∧
    (stripBearerAll t = t ↔ ¬ bearerChars <:+: t) := by
  have hp : bearerChars.isPrefixOf (bearerChars ++ t) = true :=
    List.isPrefixOf_iff_prefix.mpr (List.prefix_append _ _)
  have hcond : ¬ (bearerChars ++ t = [] ∨ ¬ bearerChars.isPrefixOf (bearerChars ++ t)) := by
    rintro (h | h)
    · have hlen := congrArg List.length h
      simp [bearerChars] at hlen
    · exact h hp
  refine ⟨?_, stripBearerAll_append t, stripBearerAll_eq_self_iff t⟩
  unfold get_current_user
  rw [if_neg hcond]

/-- C10: `parse_event_body` is total — an absent body, a null body and a
body string the JSON decoder rejects all yield the empty object instead of
raising — and consequently a login request with such a body is answered 400
(missing fields) and an authenticated create-task request with such a body
is answered 422, never 500. -/
theorem claim10_parse_body_total (loads : String → Option JObj) (now : Nat)
    (st : Store) (e : Event)
    (hl : loads jsonEmptyObjText = some {})
    (hb : e.body = BodyVal.absent ∨ e.body = BodyVal.pynull ∨
          ∃ s, e.body = BodyVal.pystr s ∧ loads s = none) :
    parse_event_body loads e = {} ∧
    (login loads now st e).1.statusCode = 400 ∧
    (∀ (verify : List Char → Option TokenPayload) (newId : String)
        (a : List Char) (u : UserView) (cs : List StoreCall),
      pickAuth e = some a → a ≠ [] →
      get_current_user verify st.users a = (some u, cs) →
      (create_task loads verify newId now st e).resp.statusCode = 422 ∧
      (create_task loads verify newId now st e).resp.statusCode ≠ 500) := by
  have hpe : parse_event_body loads e = {} := by
    unfold parse_event_body
    rcases hb with h | h | ⟨s, h, hs⟩
    · simp [h, hl]
    · simp [h]
    · simp [h, hs]
  refine ⟨hpe, ?_, ?_⟩
  · unfold login
    rw [hpe]
    rfl
  · intro verify newId a u cs hA hne hu
    have hra := require_auth_ok (create_task_handler loads newId now) verify st e hA hne hu
    have hpe2 : parse_event_body loads { e with user := some u } = ({} : JObj) := hpe
    obtain ⟨m, hm⟩ :=
      taskCreate_parse_error_of_missing (parse_event_body loads { e with user := some u })
        (Or.inl (by rw [hpe2]))
    unfold create_task
    rw [hra, create_task_handler_invalid hm]
    exact ⟨rfl, by simp [error_response]⟩

/-- C10, witness: with a concrete decoder that only accepts the two-character
object text, an event with an absent body parses to the empty object, its
login attempt is answered 400, and its authenticated create attempt is
answered 422. -/
theorem claim10_witness :
    parse_event_body (fun s => if s = jsonEmptyObjText then some {} else none)
      { authUpper := some ("Bearer tok".toList) } = {} ∧
    (login (fun s => if s = jsonEmptyObjText then some {} else none) 0
      ⟨[], [⟨"u1", "admin@example.com", "admin", "password123", 0⟩]⟩
      { authUpper := some ("Bearer tok".toList) }).1.statusCode = 400 ∧
    (create_task (fun s => if s = jsonEmptyObjText then some {} else none)
      (fun s => if s = "tok".toList then some { sub := some "admin@example.com", exp := 0 } else none)
      "aaaaaaaaaaaaaaaaaaaaaaaa" 0
      ⟨[], [⟨"u1", "admin@example.com", "admin", "password123", 0⟩]⟩
      { authUpper := some ("Bearer tok".toList) }).resp.statusCode = 422 := by
  have h := claim10_parse_body_total
    (fun s => if s = jsonEmptyObjText then some {} else none) 0
    ⟨[], [⟨"u1", "admin@example.com", "admin", "password123", 0⟩]⟩
    { authUpper := some ("Bearer tok".toList) }
    (by decide) (Or.inl rfl)
  exact ⟨h.1, h.2.1,
    (h.2.2 (fun s => if s = "tok".toList then some { sub := some "admin@example.com", exp := 0 } else none)
      "aaaaaaaaaaaaaaaaaaaaaaaa" ("Bearer tok".toList)
      (stripPassword ⟨"u1", "admin@example.com", "admin", "password123", 0⟩)
      [StoreCall.userGetByEmail] rfl (by decide) rfl).1⟩

end TaskApi

